import Mathlib

/-!
Verification of the LinkForge URL-shortener core: a shallow embedding of
the redirect resolver (src/components/RedirectHandler.tsx, handleRedirect
and its inner trackClick), the creation path
(src/pages/LandingPage.tsx, handleShorten) and the dashboard toggle
(Dashboard toggleActive), together with theorems about lifecycle policy,
click tracking, error handling and field preservation.

Modelling conventions: timestamps are epoch milliseconds as Int
(JavaScript Date comparisons compare the underlying millisecond value);
the Supabase client surfaces database failures as error values in the
returned record rather than by throwing, so each database operation is
a pure function of the database state plus an injected failure flag;
a thrown network exception is modelled by a separate flag feeding the
outer try/catch of the handler.
-/

namespace LinkForge

/-- A row of the links table (migration 20250711194243: id, user_id,
original_url, short_code, created_at, expires_at, is_active default true,
click_count integer default 0; columns not touched by the modelled code
paths are omitted). -/
structure Link where
  id : Nat
  original_url : String
  short_code : String
  is_active : Bool
  expires_at : Option Int
  click_count : Int
  created_at : Int
  user_id : Option Nat
deriving Repr, DecidableEq

/-- A row of the link_analytics table as inserted by trackClick:
link_id, user_agent, referrer (null when the document referrer is the
empty string), timestamp. -/
structure ClickEvent where
  link_id : Nat
  user_agent : String
  referrer : Option String
  timestamp : Int
deriving Repr, DecidableEq

/-- The Directory state: the links table and the link_analytics table. -/
structure DB where
  links : List Link
  analytics : List ClickEvent
deriving Repr, DecidableEq

/-- Database-level errors surfaced as values by the client:
noRows is the PGRST116 error produced by .single() when the filter does
not match exactly one row; uniqueViolation is the unique-constraint
error on links.short_code; transient covers timeouts and other
infrastructure failures returned as error values. -/
inductive DbError
  | noRows
  | uniqueViolation
  | transient (msg : String)
deriving Repr, DecidableEq

/-- The shape of a Supabase query response: data and error fields. -/
structure QueryResult (α : Type) where
  data : Option α
  error : Option DbError
deriving Repr, DecidableEq

/-- The projection produced by select of id, original_url, is_active,
expires_at on line 39 of RedirectHandler.tsx. The click_count field is
NOT in the select list, so reading it on the returned row yields
undefined at run time; that absent read is modelled as an Option that
the projection always sets to none. -/
structure LinkRow where
  id : Nat
  original_url : String
  is_active : Bool
  expires_at : Option Int
  click_count : Option Int
deriving Repr, DecidableEq

/-- Project a stored link to the partial row returned by the select on
line 39 of RedirectHandler.tsx; click_count is absent from the select
list and therefore reads as undefined (none). -/
def Link.toRow (l : Link) : LinkRow :=
  { id := l.id, original_url := l.original_url, is_active := l.is_active,
    expires_at := l.expires_at, click_count := none }

/-- JavaScript `x || 0` on a possibly-undefined numeric field. -/
def jsOrZero : Option Int → Int
  | none => 0
  | some v => v

/-- The lookup on lines 37-41 of RedirectHandler.tsx:
from('links').select(...).eq('short_code', code).single().
With .single(), exactly one matching row yields data and no error;
zero (or several) matching rows yield a noRows error and no data.
An injected transient failure yields that error and no data. -/
def selectSingleByCode (db : DB) (code : String) (fail : Option DbError) :
    QueryResult LinkRow :=
  match fail with
  | some e => { data := none, error := some e }
  | none =>
    match db.links.filter (fun l => l.short_code = code) with
    | [l] => { data := some l.toRow, error := none }
    | _ => { data := none, error := some DbError.noRows }

/-- One attempted write of the click tracker, recording whether the
attempt succeeded; the list of attempts preserves program order. -/
inductive Attempt
  | insertEvent (ev : ClickEvent) (ok : Bool)
  | updateCount (id : Nat) (newCount : Int) (ok : Bool)
deriving Repr, DecidableEq

/-- The insert on lines 77-84 of RedirectHandler.tsx; when the client
reports a failure the row is not stored, and the code does not inspect
the returned error. -/
def insertAnalytics (db : DB) (ev : ClickEvent) (fails : Bool) : DB :=
  if fails then db else { db with analytics := db.analytics ++ [ev] }

/-- The update on lines 87-90 of RedirectHandler.tsx: set click_count of
every links row with the given id to the given value; when the client
reports a failure nothing changes, and the code does not inspect the
returned error. -/
def updateClickCount (db : DB) (id : Nat) (newCount : Int) (fails : Bool) : DB :=
  if fails then db
  else { db with links :=
          db.links.map (fun l =>
            if l.id = id then { l with click_count := newCount } else l) }

/-- Request-derived client metadata: navigator.userAgent and
document.referrer. -/
structure ClickMeta where
  user_agent : String
  referrer : String
deriving Repr, DecidableEq

/-- The analytics row built on lines 79-84 of RedirectHandler.tsx;
`referrer || null` maps the empty referrer string to null. -/
def mkEvent (linkId : Nat) (meta : ClickMeta) (now : Int) : ClickEvent :=
  { link_id := linkId, user_agent := meta.user_agent,
    referrer := if meta.referrer = "" then none else some meta.referrer,
    timestamp := now }

/-- trackClick, lines 63-95 of RedirectHandler.tsx: insert the analytics
row, then set click_count to (link.click_count || 0) + 1. Both awaits
resolve with error values rather than rejecting, so the second write is
attempted whatever the first returned; the trailing catch swallows any
exception. Returns the new database state and the ordered list of write
attempts. -/
def trackClick (db : DB) (row : LinkRow) (meta : ClickMeta) (now : Int)
    (insertFails updateFails : Bool) : DB × List Attempt :=
  let ev := mkEvent row.id meta now
  let db1 := insertAnalytics db ev insertFails
  let newCount := jsOrZero row.click_count + 1
  let db2 := updateClickCount db1 row.id newCount updateFails
  (db2, [Attempt.insertEvent ev !insertFails,
         Attempt.updateCount row.id newCount !updateFails])

/-- Ambient request environment of one handleRedirect invocation:
whether the Supabase configuration check passes, the current time,
injected failure modes of the three database operations, whether the
lookup throws (network rejection reaching the outer catch) and whether
that thrown error is a fetch TypeError, and the client metadata. -/
structure Env where
  configOk : Bool
  now : Int
  lookupFail : Option DbError
  lookupThrows : Bool
  throwMsgIsFetch : Bool
  insertFails : Bool
  updateFails : Bool
  meta : ClickMeta
deriving Repr, DecidableEq

/-- The observable outcome of handleRedirect: the 404 page, the error
page with its message, or a redirect to a target URL. -/
inductive ResolveOutcome
  | notFound
  | errorPage (msg : String)
  | redirect (target : String)
deriving Repr, DecidableEq

/-- Error message of the configuration guard (line 31). -/
def configErrorMsg : String :=
  "Database connection not configured. Please check your environment variables."

/-- Error message for a deactivated link (line 50). -/
def deactivatedMsg : String := "This link has been deactivated"

/-- Error message for an expired link (line 57). -/
def expiredMsg : String := "This link has expired"

/-- Error message of the outer catch for a fetch TypeError (line 111). -/
def fetchFailMsg : String :=
  "Unable to connect to database. Please check your internet connection or contact support."

/-- Error message of the outer catch for any other exception (line 113). -/
def genericErrorMsg : String :=
  "An unexpected error occurred while processing your request."

/-- JavaScript falsiness of the shortCode route parameter on line 13:
undefined or the empty string. -/
def jsBlank : Option String → Bool
  | none => true
  | some s => s = ""

/-- Result of one handleRedirect run: the outcome shown or performed,
the database state afterwards, and the tracker write attempts made. -/
structure RunResult where
  outcome : ResolveOutcome
  db : DB
  attempts : List Attempt
deriving Repr, DecidableEq

/-- handleRedirect, lines 12-117 of RedirectHandler.tsx: blank-code
guard, configuration guard, lookup (a thrown lookup lands in the outer
catch), the not-found conflation on line 43 (error value or missing data
both render the 404 page), the active check, the expiry check
(expires_at present and strictly before now), and on success the
fire-and-forget trackClick followed by the redirect to original_url. -/
def handleRedirect (env : Env) (shortCode : Option String) (db : DB) :
    RunResult :=
  if jsBlank shortCode then
    { outcome := ResolveOutcome.notFound, db := db, attempts := [] }
  else if !env.configOk then
    { outcome := ResolveOutcome.errorPage configErrorMsg, db := db, attempts := [] }
  else if env.lookupThrows then
    { outcome := ResolveOutcome.errorPage
        (if env.throwMsgIsFetch then fetchFailMsg else genericErrorMsg),
      db := db, attempts := [] }
  else
    let q := selectSingleByCode db (shortCode.getD "") env.lookupFail
    match q.data with
    | none =>
      { outcome := ResolveOutcome.notFound, db := db, attempts := [] }
    | some row =>
      if q.error.isSome then
        { outcome := ResolveOutcome.notFound, db := db, attempts := [] }
      else if !row.is_active then
        { outcome := ResolveOutcome.errorPage deactivatedMsg, db := db, attempts := [] }
      else if (match row.expires_at with
               | some t => decide (t < env.now)
               | none => false) then
        { outcome := ResolveOutcome.errorPage expiredMsg, db := db, attempts := [] }
      else
        let tracked := trackClick db row env.meta env.now env.insertFails env.updateFails
        { outcome := ResolveOutcome.redirect row.original_url,
          db := tracked.1, attempts := tracked.2 }

/-- Resolvability as the specification words it: active AND
(expires_at IS NULL OR expires_at > now). -/
def resolvableSpec (l : Link) (now : Int) : Bool :=
  l.is_active && (match l.expires_at with
                  | none => true
                  | some t => decide (now < t))

/-- Resolvability as the handler implements it: active AND
(expires_at absent OR now <= expires_at), since the code marks a link
expired only when expires_at is strictly before now. -/
def resolvableCode (l : Link) (now : Int) : Bool :=
  l.is_active && (match l.expires_at with
                  | none => true
                  | some t => decide (now ≤ t))

/-- Whether an outcome is one of the two Gone pages (deactivated or
expired). -/
def ResolveOutcome.isGone : ResolveOutcome → Bool
  | ResolveOutcome.errorPage m => m = deactivatedMsg || m = expiredMsg
  | _ => false

/-- Whether an outcome is one of the internal-error pages produced by
the configuration guard or the outer catch. -/
def ResolveOutcome.isInternal : ResolveOutcome → Bool
  | ResolveOutcome.errorPage m =>
      m = configErrorMsg || m = fetchFailMsg || m = genericErrorMsg
  | _ => false

/-- ASCII whitespace as stripped by the JavaScript string trim used on
line 21 of LandingPage.tsx. -/
def jsWhitespace (c : Char) : Bool :=
  c = ' ' || c = '\t' || c = '\n' || c = '\r'

/-- JavaScript falsiness of url.trim() on line 21 of LandingPage.tsx:
the trimmed string is empty exactly when every character of the input
is whitespace. -/
def jsStrBlank (s : String) : Bool := s.toList.all jsWhitespace

/-- Result shown by handleShorten on the landing page: a toast error
message or the shortened URL placed into state. -/
inductive ShortenResult
  | success (shortUrl : String)
  | failure (msg : String)
deriving Repr, DecidableEq

/-- Environment of one handleShorten invocation, lines 20-71 of
LandingPage.tsx. The fields urlValid and generatedCode stand for the
two helpers imported from lib/utils, whose file is not in the sources.
Modelled from the spec: isValidUrl decides whether the input is a
well-formed absolute URL, and generateShortCode produces one
fixed-length identifier from a URL-safe alphabet; handleShorten calls
each exactly once, so one boolean and one string capture the calls.
newId stands for the server-generated row id, and the single field now
is both the client clock used for the 7-day expiry and the server clock
filling the created_at default. -/
structure CreateEnv where
  url : String
  urlValid : Bool
  configOk : Bool
  generatedCode : String
  now : Int
  userId : Option Nat
  newId : Nat
  origin : String
deriving Repr, DecidableEq

/-- Seven days in milliseconds: the guest expiry window added by
expiresAt.setDate(expiresAt.getDate() + 7) on line 41 of
LandingPage.tsx, modelling the calendar step in a fixed-offset zone. -/
def sevenDaysMs : Int := 7 * 86400000

/-- The insert on lines 43-52 of LandingPage.tsx against the links
table: the unique constraint on short_code (migration line 67) rejects
a row whose code is already present, leaving the table unchanged;
otherwise the row is appended. -/
def insertLinkRecord (db : DB) (l : Link) : QueryResult Link × DB :=
  if db.links.any (fun x => x.short_code = l.short_code) then
    ({ data := none, error := some DbError.uniqueViolation }, db)
  else
    ({ data := some l, error := none }, { db with links := db.links ++ [l] })

/-- Toast message of the catch-all branch on line 66 of
LandingPage.tsx, reached when the thrown error is the insert error. -/
def shortenFailMsg : String :=
  "Failed to shorten URL. Please check your database setup."

/-- Toast message for missing configuration (line 64). -/
def configMissingMsg : String :=
  "Supabase not configured. Please set up your environment variables."

/-- Result of one handleShorten run: the user-visible result, the
database state afterwards, and how many insert attempts were made. -/
structure CreateResult where
  result : ShortenResult
  db : DB
  insertAttempts : Nat
deriving Repr, DecidableEq

/-- handleShorten, lines 20-71 of LandingPage.tsx: empty-input guard,
URL validation, configuration guard, then one generateShortCode call,
expiry at now plus 7 days, and one insert whose error is thrown and
caught as a failure toast. The inserted row carries the migration
defaults is_active true and click_count 0, and user_id is null for a
guest. There is no retry loop: a single failed insert ends the
invocation. -/
def handleShorten (env : CreateEnv) (db : DB) : CreateResult :=
  if jsStrBlank env.url then
    { result := ShortenResult.failure "Please enter a URL", db := db, insertAttempts := 0 }
  else if !env.urlValid then
    { result := ShortenResult.failure "Please enter a valid URL", db := db, insertAttempts := 0 }
  else if !env.configOk then
    { result := ShortenResult.failure configMissingMsg, db := db, insertAttempts := 0 }
  else
    let newLink : Link :=
      { id := env.newId, original_url := env.url,
        short_code := env.generatedCode, is_active := true,
        expires_at := some (env.now + sevenDaysMs), click_count := 0,
        created_at := env.now, user_id := env.userId }
    let attempt := insertLinkRecord db newLink
    match attempt.1.error with
    | some _ =>
      { result := ShortenResult.failure shortenFailMsg, db := attempt.2, insertAttempts := 1 }
    | none =>
      { result := ShortenResult.success (env.origin ++ "/" ++ env.generatedCode),
        db := attempt.2, insertAttempts := 1 }

/-- toggleActive from the Dashboard page (part_009 lines 126-143 and
part_001 lines 124-141): update({ is_active: !isActive }).eq('id',
linkId) sets the is_active column of every row with the given id to the
negation of the passed flag and touches nothing else; a client failure
leaves the table unchanged. -/
def toggleActive (db : DB) (linkId : Nat) (isActive : Bool)
    (updateFails : Bool) : DB :=
  if updateFails then db
  else { db with links :=
          db.links.map (fun l =>
            if l.id = linkId then { l with is_active := !isActive } else l) }

/-! Shared concrete fixtures used by counterexamples and witnesses. -/

/-- A stored link whose expiry instant will coincide with the clock of
bEnv: the boundary case of the lifecycle policy. -/
def bLink : Link :=
  { id := 1, original_url := "https://example.com/x", short_code := "b1",
    is_active := true, expires_at := some 1000, click_count := 0,
    created_at := 0, user_id := none }

/-- Directory holding only bLink. -/
def bDb : DB := { links := [bLink], analytics := [] }

/-- A fully healthy environment whose clock equals the expiry instant of
bLink. -/
def bEnv : Env :=
  { configOk := true, now := 1000, lookupFail := none, lookupThrows := false,
    throwMsgIsFetch := false, insertFails := false, updateFails := false,
    meta := { user_agent := "UA", referrer := "" } }

/-- An active, never-expiring stored link that has already accumulated
five clicks. -/
def cLink : Link :=
  { id := 7, original_url := "https://example.com/a", short_code := "c3",
    is_active := true, expires_at := none, click_count := 5,
    created_at := 0, user_id := none }

/-- Directory holding only cLink. -/
def cDb : DB := { links := [cLink], analytics := [] }

/-- A healthy environment for resolving cLink. -/
def cEnv : Env := { bEnv with now := 100 }

/-! Helper characterization of the resolver once a link is found. -/

/-- When the code is non-blank, the configuration check passes, the
lookup neither throws nor fails, and the Directory filter returns
exactly the link l, handleRedirect reduces to the lifecycle policy
applied to l. -/
theorem handleRedirect_found (env : Env) (db : DB) (c : String) (l : Link)
    (hc : c ≠ "") (hcfg : env.configOk = true) (hthrow : env.lookupThrows = false)
    (hfail : env.lookupFail = none)
    (hfound : db.links.filter (fun x => x.short_code = c) = [l]) :
    handleRedirect env (some c) db =
      if !l.is_active then
        { outcome := ResolveOutcome.errorPage deactivatedMsg, db := db, attempts := [] }
      else if (match l.expires_at with
               | some t => decide (t < env.now)
               | none => false) then
        { outcome := ResolveOutcome.errorPage expiredMsg, db := db, attempts := [] }
      else
        { outcome := ResolveOutcome.redirect l.original_url,
          db := (trackClick db l.toRow env.meta env.now env.insertFails env.updateFails).1,
          attempts := (trackClick db l.toRow env.meta env.now env.insertFails env.updateFails).2 } := by
  unfold handleRedirect
  simp [jsBlank, hc, hcfg, hthrow, hfail, selectSingleByCode, hfound, Link.toRow]

/-- Claim C1: for a link found by the lookup, the resolver redirects to
the stored target byte-for-byte exactly when the link is active and not
past expiry, and otherwise shows a Gone page; but the boundary the code
implements is now less-or-equal expires_at, not the strict inequality
the claim states, so the iff is stated against resolvableCode. -/
theorem C1_redirect_iff_resolvable (env : Env) (db : DB) (c : String) (l : Link)
    (hc : c ≠ "") (hcfg : env.configOk = true) (hthrow : env.lookupThrows = false)
    (hfail : env.lookupFail = none)
    (hfound : db.links.filter (fun x => x.short_code = c) = [l]) :
    ((handleRedirect env (some c) db).outcome = ResolveOutcome.redirect l.original_url
        ↔ resolvableCode l env.now = true)
    ∧ (∀ t, (handleRedirect env (some c) db).outcome = ResolveOutcome.redirect t →
        t = l.original_url)
    ∧ (resolvableCode l env.now = false →
        ((handleRedirect env (some c) db).outcome).isGone = true) := by
  rw [handleRedirect_found env db c l hc hcfg hthrow hfail hfound]
  cases ha : l.is_active with
  | false =>
    simp [resolvableCode, ha, ResolveOutcome.isGone]
  | true =>
    cases he : l.expires_at with
    | none =>
      simp [resolvableCode, ha, he]
    | some t =>
      by_cases hlt : t < env.now
      · have hnle : ¬ env.now ≤ t := by omega
        simp [resolvableCode, ha, he, hlt, hnle, ResolveOutcome.isGone]
      · have hle : env.now ≤ t := by omega
        simp [resolvableCode, ha, he, hlt, hle]

/-- Claim C1 counterexample: bLink expires at exactly the current
instant, so the specification calls it unresolvable, yet the resolver
redirects rather than returning Gone. -/
theorem C1_boundary_counterexample :
    resolvableSpec bLink 1000 = false
    ∧ (handleRedirect bEnv (some "b1") bDb).outcome
        = ResolveOutcome.redirect "https://example.com/x"
    ∧ ((handleRedirect bEnv (some "b1") bDb).outcome).isGone = false := by
  decide

/-- Claim C1 witness: the amended characterization applied to the
concrete boundary fixture. -/
theorem C1_redirect_iff_resolvable_witness :
    ((handleRedirect bEnv (some "b1") bDb).outcome
        = ResolveOutcome.redirect bLink.original_url
      ↔ resolvableCode bLink bEnv.now = true)
    ∧ (∀ t, (handleRedirect bEnv (some "b1") bDb).outcome = ResolveOutcome.redirect t →
        t = bLink.original_url)
    ∧ (resolvableCode bLink bEnv.now = false →
        ((handleRedirect bEnv (some "b1") bDb).outcome).isGone = true) :=
  C1_redirect_iff_resolvable bEnv bDb "b1" bLink (by decide) (by decide)
    (by decide) (by decide) (by decide)

/-- Claim C2 counterexample: with the link present but the Directory
lookup failing transiently (an error value from the client), the
resolver renders the 404 page — a lookup failure is reported as
NotFound, not as an internal error. -/
theorem C2_lookup_failure_counterexample :
    (handleRedirect { bEnv with lookupFail := some (DbError.transient "timeout") }
        (some "b1") bDb).outcome = ResolveOutcome.notFound
    ∧ ((handleRedirect { bEnv with lookupFail := some (DbError.transient "timeout") }
        (some "b1") bDb).outcome).isInternal = false := by
  decide

/-- Claim C2 amended: a Directory lookup failure surfaced as an error
value by the client is conflated with the no-rows case and reported as
NotFound; only a lookup that throws (a rejected network call reaching
the outer catch) produces an internal-error page. -/
theorem C2_lookup_error_is_not_found (env : Env) (db : DB) (c : String) (e : DbError)
    (hc : c ≠ "") (hcfg : env.configOk = true) (hthrow : env.lookupThrows = false)
    (hfail : env.lookupFail = some e) :
    (handleRedirect env (some c) db).outcome = ResolveOutcome.notFound
    ∧ ((handleRedirect { env with lookupThrows := true } (some c) db).outcome).isInternal
        = true := by
  constructor
  · unfold handleRedirect
    simp [jsBlank, hc, hcfg, hthrow, hfail, selectSingleByCode]
  · unfold handleRedirect
    cases h : env.throwMsgIsFetch <;>
      simp [jsBlank, hc, hcfg, h, ResolveOutcome.isInternal, fetchFailMsg,
        genericErrorMsg, configErrorMsg]

/-- Claim C2 witness: the amended statement applied to the concrete
fixture with an injected transient lookup failure. -/
theorem C2_lookup_error_is_not_found_witness :
    (handleRedirect { bEnv with lookupFail := some (DbError.transient "boom") }
        (some "b1") bDb).outcome = ResolveOutcome.notFound
    ∧ ((handleRedirect { { bEnv with lookupFail := some (DbError.transient "boom") }
          with lookupThrows := true } (some "b1") bDb).outcome).isInternal = true :=
  C2_lookup_error_is_not_found { bEnv with lookupFail := some (DbError.transient "boom") }
    bDb "b1" (DbError.transient "boom") (by decide) (by decide) (by decide) (by decide)

/-- Claim C3: the spec says click_count starts at 0, never decreases,
and each successful resolution increments it by exactly 1. The select
on line 39 omits click_count, so the update on line 89 writes
(undefined or 0) + 1 = 1 regardless of the stored value: resolving
cLink, which has five recorded clicks, overwrites its counter with 1,
decreasing it by four. The Directory migration defines
increment_click_count as a true increment, so the handler contradicts
the documented intent of the schema. -/
theorem C3_click_count_overwritten_to_one :
    cDb.links.map Link.click_count = [5]
    ∧ (handleRedirect cEnv (some "c3") cDb).outcome
        = ResolveOutcome.redirect "https://example.com/a"
    ∧ (handleRedirect cEnv (some "c3") cDb).db.links.map Link.click_count = [1] := by
  decide

/-- Claim C4: in the click tracker the event insertion is attempted
before the counter write, both attempts are always made whatever the
failure flags (so a failed insertion never blocks the counter attempt),
the links table after tracking does not depend on whether the insertion
failed, and a failed counter write does not remove the inserted
event. -/
theorem C4_tracker_writes_independent (db : DB) (row : LinkRow) (meta : ClickMeta)
    (now : Int) (iF uF : Bool) :
    (trackClick db row meta now iF uF).2
      = [Attempt.insertEvent (mkEvent row.id meta now) !iF,
         Attempt.updateCount row.id (jsOrZero row.click_count + 1) !uF]
    ∧ (trackClick db row meta now true uF).1.links
        = (trackClick db row meta now false uF).1.links
    ∧ mkEvent row.id meta now ∈ (trackClick db row meta now false true).1.analytics := by
  refine ⟨rfl, ?_, ?_⟩
  · cases uF <;> simp [trackClick, insertAnalytics, updateClickCount]
  · simp [trackClick, insertAnalytics, updateClickCount]

/-- A creation environment whose generated code collides with the code
of bLink already stored in bDb. -/
def colEnv : CreateEnv :=
  { url := "https://long.example/page", urlValid := true, configOk := true,
    generatedCode := "b1", now := 50, userId := none, newId := 9,
    origin := "https://sho.rt" }

/-- Claim C5 counterexample: with the single generated code colliding
with the stored code of bLink, the creation request fails at once with
the failure toast after exactly one insert attempt, and the Directory
is unchanged — no fresh code is generated and no retry happens. -/
theorem C5_collision_counterexample :
    (handleShorten colEnv bDb).result = ShortenResult.failure shortenFailMsg
    ∧ (handleShorten colEnv bDb).insertAttempts = 1
    ∧ (handleShorten colEnv bDb).db = bDb := by
  decide

/-- Claim C5 amended: on a uniqueness collision against the Directory
the creation path does not retry: it makes exactly one insert attempt
with its single generated code, the thrown insert error surfaces as the
failure toast, and the Directory is left unchanged. -/
theorem C5_collision_fails_without_retry (env : CreateEnv) (db : DB)
    (hurl : jsStrBlank env.url = false) (hvalid : env.urlValid = true)
    (hcfg : env.configOk = true)
    (hcol : ∃ l ∈ db.links, l.short_code = env.generatedCode) :
    (handleShorten env db).result = ShortenResult.failure shortenFailMsg
    ∧ (handleShorten env db).insertAttempts = 1
    ∧ (handleShorten env db).db = db := by
  have hany : db.links.any (fun x => x.short_code = env.generatedCode) = true := by
    rw [List.any_eq_true]
    obtain ⟨l, hl, he⟩ := hcol
    exact ⟨l, hl, by simp [he]⟩
  unfold handleShorten
  simp [hurl, hvalid, hcfg, insertLinkRecord, hany]

/-- Claim C5 witness: the amended statement applied to the concrete
colliding fixture. -/
theorem C5_collision_fails_without_retry_witness :
    (handleShorten colEnv bDb).result = ShortenResult.failure shortenFailMsg
    ∧ (handleShorten colEnv bDb).insertAttempts = 1
    ∧ (handleShorten colEnv bDb).db = bDb :=
  C5_collision_fails_without_retry colEnv bDb (by decide) (by decide) (by decide)
    ⟨bLink, by decide, by decide⟩

/-- Claim C6: the outcome of handleRedirect is identical whatever the
success or failure of the analytics insert and of the counter update:
tracking failures are swallowed inside trackClick and can neither
change a decided redirect nor turn it into an error. -/
theorem C6_outcome_ignores_tracking (env : Env) (sc : Option String) (db : DB)
    (iF uF iF2 uF2 : Bool) :
    (handleRedirect { env with insertFails := iF, updateFails := uF } sc db).outcome
      = (handleRedirect { env with insertFails := iF2, updateFails := uF2 } sc db).outcome := by
  unfold handleRedirect
  cases hb : jsBlank sc
  · cases hcfg : env.configOk
    · simp [hb, hcfg]
    · cases ht : env.lookupThrows
      · simp only [hb, hcfg, ht, Bool.not_true, Bool.false_eq_true, if_false, if_true,
          Bool.not_false]
        cases hq : (selectSingleByCode db (sc.getD "") env.lookupFail).data
        · simp [hq]
        · rename_i row
          simp only [hq]
          cases herr : (selectSingleByCode db (sc.getD "") env.lookupFail).error.isSome <;>
            cases hact : row.is_active <;>
              cases hexp : (match row.expires_at with
                            | some t => decide (t < env.now)
                            | none => false) <;>
                simp [herr, hact, hexp]
      · simp [hb, hcfg, ht]
  · simp [hb]

/-- Claim C7: whenever the outcome is not a redirect — the 404 page or
any error page, including lookup failures and timeouts — the Directory
is untouched: no ClickEvent row is inserted, no click_count is written,
and no tracker attempt is even made. -/
theorem C7_no_side_effects_without_redirect (env : Env) (sc : Option String) (db : DB) :
    ((handleRedirect env sc db).outcome = ResolveOutcome.notFound →
        (handleRedirect env sc db).db = db ∧ (handleRedirect env sc db).attempts = [])
    ∧ (∀ msg, (handleRedirect env sc db).outcome = ResolveOutcome.errorPage msg →
        (handleRedirect env sc db).db = db ∧ (handleRedirect env sc db).attempts = []) := by
  unfold handleRedirect
  cases hb : jsBlank sc
  · cases hcfg : env.configOk
    · simp [hb, hcfg]
    · cases ht : env.lookupThrows
      · simp only [hb, hcfg, ht, Bool.not_true, Bool.false_eq_true, if_false, if_true,
          Bool.not_false]
        cases hq : (selectSingleByCode db (sc.getD "") env.lookupFail).data
        · simp [hq]
        · rename_i row
          simp only [hq]
          cases herr : (selectSingleByCode db (sc.getD "") env.lookupFail).error.isSome <;>
            cases hact : row.is_active <;>
              cases hexp : (match row.expires_at with
                            | some t => decide (t < env.now)
                            | none => false) <;>
                simp [herr, hact, hexp]
      · simp [hb, hcfg, ht]
  · simp [hb]

/-- Claim C7 witness: resolving the blank code leaves the Directory
unchanged and makes no tracker attempt. -/
theorem C7_no_side_effects_without_redirect_witness :
    (handleRedirect bEnv (some "") bDb).db = bDb
    ∧ (handleRedirect bEnv (some "") bDb).attempts = [] :=
  (C7_no_side_effects_without_redirect bEnv (some "") bDb).1 (by decide)

/-- Claim C8: with the resolver healthy (configured, lookup neither
throwing nor failing), a code carried by no stored link renders the 404
page, and so do the empty code and the absent route parameter, which
the blank guard catches before any lookup. -/
theorem C8_unknown_or_blank_code_not_found (env : Env) (db : DB) (c : String)
    (hcfg : env.configOk = true) (hthrow : env.lookupThrows = false)
    (hfail : env.lookupFail = none)
    (habsent : ∀ l ∈ db.links, l.short_code ≠ c) :
    (handleRedirect env (some c) db).outcome = ResolveOutcome.notFound
    ∧ (handleRedirect env (some "") db).outcome = ResolveOutcome.notFound
    ∧ (handleRedirect env none db).outcome = ResolveOutcome.notFound := by
  refine ⟨?_, ?_, ?_⟩
  · by_cases hc : c = ""
    · subst hc
      unfold handleRedirect
      simp [jsBlank]
    · have hfil : db.links.filter (fun x => x.short_code = c) = [] := by
        rw [List.filter_eq_nil_iff]
        intro a ha
        simpa using habsent a ha
      unfold handleRedirect
      simp [jsBlank, hc, hcfg, hthrow, hfail, selectSingleByCode, hfil]
  · unfold handleRedirect
    simp [jsBlank]
  · unfold handleRedirect
    simp [jsBlank]

/-- Claim C8 witness: the statement applied to a code stored nowhere in
the concrete Directory. -/
theorem C8_unknown_or_blank_code_not_found_witness :
    (handleRedirect bEnv (some "doesnotexist") bDb).outcome = ResolveOutcome.notFound
    ∧ (handleRedirect bEnv (some "") bDb).outcome = ResolveOutcome.notFound
    ∧ (handleRedirect bEnv none bDb).outcome = ResolveOutcome.notFound :=
  C8_unknown_or_blank_code_not_found bEnv bDb "doesnotexist" (by decide) (by decide)
    (by decide) (by decide)

/-- Claim C9: a successful guest creation (no owner) stores exactly one
new link whose user_id is null and whose expires_at equals its creation
time plus seven days; the equality is exact, hence within the 1-second
tolerance the scenario allows. -/
theorem C9_guest_link_seven_day_expiry (env : CreateEnv) (db : DB)
    (hurl : jsStrBlank env.url = false) (hvalid : env.urlValid = true)
    (hcfg : env.configOk = true) (hguest : env.userId = none)
    (hfresh : ∀ l ∈ db.links, l.short_code ≠ env.generatedCode) :
    ∃ l, (handleShorten env db).db.links = db.links ++ [l]
      ∧ l.user_id = none
      ∧ l.expires_at = some (l.created_at + sevenDaysMs)
      ∧ ∀ t, l.expires_at = some t → (t - (l.created_at + sevenDaysMs)).natAbs ≤ 1000 := by
  have hany : db.links.any (fun x => x.short_code = env.generatedCode) = false := by
    rw [Bool.eq_false_iff]
    intro hh
    rw [List.any_eq_true] at hh
    obtain ⟨l, hl, he⟩ := hh
    exact hfresh l hl (by simpa using he)
  refine ⟨{ id := env.newId, original_url := env.url,
            short_code := env.generatedCode, is_active := true,
            expires_at := some (env.now + sevenDaysMs), click_count := 0,
            created_at := env.now, user_id := env.userId }, ?_, hguest, rfl, ?_⟩
  · unfold handleShorten
    simp [hurl, hvalid, hcfg, insertLinkRecord, hany]
  · intro t ht
    have : t = env.now + sevenDaysMs := by
      have hx := ht
      simp at hx
      omega
    simp [this]

/-- A fresh, non-colliding guest creation environment over bDb. -/
def freshEnv : CreateEnv :=
  { url := "https://long.example/other", urlValid := true, configOk := true,
    generatedCode := "zz", now := 50, userId := none, newId := 9,
    origin := "https://sho.rt" }

/-- Claim C9 witness: the statement applied to the concrete fresh guest
creation. -/
theorem C9_guest_link_seven_day_expiry_witness :
    ∃ l, (handleShorten freshEnv bDb).db.links = bDb.links ++ [l]
      ∧ l.user_id = none
      ∧ l.expires_at = some (l.created_at + sevenDaysMs)
      ∧ ∀ t, l.expires_at = some t → (t - (l.created_at + sevenDaysMs)).natAbs ≤ 1000 :=
  C9_guest_link_seven_day_expiry freshEnv bDb (by decide) (by decide) (by decide)
    (by decide) (by decide)

/-- Claim C10: toggling a link through the dashboard call
toggleActive(link.id, link.is_active) stores the boolean negation of
is_active on that link and preserves every other field of its record
(original_url, short_code, expires_at, click_count, created_at,
user_id); rows with a different id are untouched. -/
theorem C10_toggle_preserves_other_fields (db : DB) (l : Link) (hmem : l ∈ db.links) :
    ∃ l2, l2 ∈ (toggleActive db l.id l.is_active false).links
      ∧ l2.is_active = !l.is_active
      ∧ l2.original_url = l.original_url
      ∧ l2.short_code = l.short_code
      ∧ l2.expires_at = l.expires_at
      ∧ l2.click_count = l.click_count
      ∧ l2.created_at = l.created_at
      ∧ l2.user_id = l.user_id
      ∧ l2.id = l.id
      ∧ ∀ x ∈ db.links, x.id ≠ l.id → x ∈ (toggleActive db l.id l.is_active false).links := by
  refine ⟨{ l with is_active := !l.is_active }, ?_, rfl, rfl, rfl, rfl, rfl, rfl, rfl, rfl, ?_⟩
  · unfold toggleActive
    simp only [Bool.false_eq_true, if_false]
    exact List.mem_map.mpr ⟨l, hmem, by simp⟩
  · intro x hx hne
    unfold toggleActive
    simp only [Bool.false_eq_true, if_false]
    exact List.mem_map.mpr ⟨x, hx, by simp [hne]⟩

/-- Claim C10 witness: the statement applied to the concrete link bLink
in the concrete Directory bDb. -/
theorem C10_toggle_preserves_other_fields_witness :
    ∃ l2, l2 ∈ (toggleActive bDb bLink.id bLink.is_active false).links
      ∧ l2.is_active = !bLink.is_active
      ∧ l2.original_url = bLink.original_url
      ∧ l2.short_code = bLink.short_code
      ∧ l2.expires_at = bLink.expires_at
      ∧ l2.click_count = bLink.click_count
      ∧ l2.created_at = bLink.created_at
      ∧ l2.user_id = bLink.user_id
      ∧ l2.id = bLink.id
      ∧ ∀ x ∈ bDb.links, x.id ≠ bLink.id →
          x ∈ (toggleActive bDb bLink.id bLink.is_active false).links :=
  C10_toggle_preserves_other_fields bDb bLink (by decide)

end LinkForge
